import Mathlib

/-!
Verification of `modeling_algebraic_expressions/expressions.py`: a shallow
embedding of the expression class hierarchy and of its operations
(evaluation, expansion, differentiation, generic combinator search), with
theorems checking the specification's claims against the embedded code.

Numbers are modelled by `ℚ`: every numeric value appearing in a claim is
exactly representable, and the embedded arithmetic marks results that are
not exactly rational (general `**`, transcendental registry functions) as
`notExactlyRepresentable` instead of approximating them.

The operation theorems treat the classes as instantiable, i.e. they model
the method bodies over trees; the theorem for the first claim records
separately that CPython's ABC machinery would in fact refuse to
instantiate every concrete variant.
-/

namespace Calculus

/-- The methods declared `@abstractmethod` on the abstract base class
`Expression`: `__str__` (written `strm` here), `evaluate`, `expand`,
`derivative`, and the three introspection folds. -/
inductive PyMethod where
  | strm
  | evaluate
  | expand
  | derivative
  | getDistinctVariables
  | getDistinctNumbers
  | getDistinctFunctions
deriving DecidableEq

/-- The twelve concrete subclasses of `Expression` in the source file
(`Function` subclasses nothing and is not listed). -/
inductive PyClass where
  | power
  | number
  | variableCls
  | product
  | quotient
  | sum
  | difference
  | negative
  | absoluteValue
  | squareRoot
  | modulo
  | applyCls
deriving DecidableEq, Fintype

/-- The abstract methods of `Expression`, in declaration order. -/
def abstractMethods : List PyMethod :=
  [.strm, .evaluate, .expand, .derivative,
   .getDistinctVariables, .getDistinctNumbers, .getDistinctFunctions]

/-- The methods each concrete class defines in its own body, read off the
source file: every class re-implements the operational methods except that
`SquareRoot` and `Apply` omit `derivative` and `Modulo` omits both
`expand` and `derivative`; no class implements `__str__`. -/
def definedMethods : PyClass → List PyMethod
  | .power => [.evaluate, .expand, .derivative,
               .getDistinctFunctions, .getDistinctNumbers, .getDistinctVariables]
  | .number => [.evaluate, .expand, .derivative,
                .getDistinctFunctions, .getDistinctNumbers, .getDistinctVariables]
  | .variableCls => [.evaluate, .expand, .derivative,
                     .getDistinctFunctions, .getDistinctNumbers, .getDistinctVariables]
  | .product => [.evaluate, .expand, .derivative,
                 .getDistinctFunctions, .getDistinctNumbers, .getDistinctVariables]
  | .quotient => [.evaluate, .expand, .derivative,
                  .getDistinctFunctions, .getDistinctNumbers, .getDistinctVariables]
  | .sum => [.evaluate, .expand, .derivative,
             .getDistinctFunctions, .getDistinctNumbers, .getDistinctVariables]
  | .difference => [.evaluate, .expand, .derivative,
                    .getDistinctFunctions, .getDistinctNumbers, .getDistinctVariables]
  | .negative => [.evaluate, .expand, .derivative,
                  .getDistinctFunctions, .getDistinctNumbers, .getDistinctVariables]
  | .absoluteValue => [.evaluate, .expand, .derivative,
                       .getDistinctFunctions, .getDistinctNumbers, .getDistinctVariables]
  | .squareRoot => [.evaluate, .expand,
                    .getDistinctFunctions, .getDistinctNumbers, .getDistinctVariables]
  | .modulo => [.evaluate,
                .getDistinctFunctions, .getDistinctNumbers, .getDistinctVariables]
  | .applyCls => [.evaluate, .expand,
                  .getDistinctFunctions, .getDistinctNumbers, .getDistinctVariables]

/-- Under Python ABC semantics a subclass stays abstract on every declared
abstract method it does not override (inheriting `object.__str__` does not
help: the abstract `Expression.__str__` shadows it in the MRO). -/
def unimplementedAbstractMethods (c : PyClass) : List PyMethod :=
  abstractMethods.filter (fun m => !((definedMethods c).contains m))

/-- Python raises `TypeError` on instantiation, before `__init__` sees any
arguments, precisely when the class has a nonempty `__abstractmethods__`
set. -/
def instantiationRaisesTypeError (c : PyClass) : Bool :=
  !(unimplementedAbstractMethods c).isEmpty

/-- The expression tree: one constructor per concrete `Expression`
subclass, each storing exactly the attributes its `__init__` stores.
`Apply` stores its `Function` object's name directly; Python's `Variable`
becomes the constructor `var` (`variable` is reserved in Lean). -/
inductive Expr where
  | number (value : ℚ)
  | var (name : String)
  | sum (terms : List Expr)
  | difference (minuend subtrahend : Expr)
  | product (factor1 factor2 : Expr)
  | quotient (numerator denominator : Expr)
  | power (base exponent : Expr)
  | negative (expression : Expr)
  | absoluteValue (expression : Expr)
  | squareRoot (expression : Expr)
  | modulo (dividend divisor : Expr)
  | apply (fname : String) (argument : Expr)

/-- Failure outcomes observable from the embedded operations.
`returnsNone` marks a call that in Python lands on the abstract stub of
`Expression` (whose body is `pass`, so it returns `None` instead of a
tree); the embedding surfaces that at the point of the call instead of
threading `None` through the surrounding tree. `outOfFuel` is an artifact
of the fuel-indexed `expand` only; no theorem below depends on it. -/
inductive PyError where
  | unboundVariable (name : String)
  | unknownFunction (name : String)
  | zeroDivision
  | domainError
  | notExactlyRepresentable
  | typeError
  | returnsNone
  | outOfFuel
deriving DecidableEq

/-- Python `**` restricted to rational results: exact for an integral
exponent, with `ZeroDivisionError` on `0 ** n` for negative `n`; a
non-integral exponent generally has no rational value (Python produces a
float or a complex number) and is reported as `notExactlyRepresentable`. -/
def pypow (b e : ℚ) : Except PyError ℚ :=
  if e.den = 1 then
    if b = 0 ∧ e.num < 0 then .error .zeroDivision
    else .ok (b ^ e.num)
  else .error .notExactlyRepresentable

/-- Exact natural square root, found by exhaustive search so that it
evaluates by kernel reduction (the embedding only applies it to small
literals): `some r` when `r * r = n`, otherwise `none`. -/
def exactNatSqrt (n : ℕ) : Option ℕ :=
  (List.range (n + 1)).find? (fun r => r * r == n)

/-- `math.sqrt` restricted to exact rational outputs: the exact square
root when the operand is the square of a rational, `domainError` on
negative input (Python raises `ValueError: math domain error`), and
`notExactlyRepresentable` otherwise. -/
def pysqrt (q : ℚ) : Except PyError ℚ :=
  if q < 0 then .error .domainError
  else
    match exactNatSqrt q.num.natAbs, exactNatSqrt q.den with
    | some sn, some sd => .ok ((sn : ℚ) / (sd : ℚ))
    | _, _ => .error .notExactlyRepresentable

/-- Python `%`: `a - b * floor(a / b)`, the result taking the divisor's
sign; `ZeroDivisionError` on a zero divisor. -/
def pymod (a b : ℚ) : Except PyError ℚ :=
  if b = 0 then .error .zeroDivision
  else .ok (a - b * (⌊a / b⌋ : ℚ))

/-- A transcendental registry entry has no exact rational value in
general; the embedding models each one only at the single input where the
host float function is exact (for example `sin 0 = 0`, `exp 0 = 1`) and
reports `notExactlyRepresentable` elsewhere. No claim depends on other
inputs of these functions. -/
def exactAt (x y q : ℚ) : Except PyError ℚ :=
  if q = x then .ok y else .error .notExactlyRepresentable

/-- The fixed registry `_SPECIAL_FUNCTIONS_BINDING`, keys in source order.
`atan2` is binary in Python while `Apply.evaluate` passes one argument, so
calling it raises `TypeError`. -/
def SPECIAL_FUNCTIONS_BINDING : List (String × (ℚ → Except PyError ℚ)) :=
  [("sin", exactAt 0 0), ("cos", exactAt 0 1), ("tan", exactAt 0 0),
   ("asin", exactAt 0 0), ("acos", exactAt 1 0), ("atan", exactAt 0 0),
   ("atan2", fun _ => .error .typeError),
   ("sinh", exactAt 0 0), ("cosh", exactAt 0 1), ("tanh", exactAt 0 0),
   ("asinh", exactAt 0 0), ("acosh", exactAt 1 0), ("atanh", exactAt 0 0),
   ("exp", exactAt 0 1), ("ln", exactAt 1 0), ("log", exactAt 1 0),
   ("sqrt", pysqrt), ("abs", fun q => .ok |q|),
   ("ceil", fun q => .ok (⌈q⌉ : ℚ)), ("floor", fun q => .ok (⌊q⌋ : ℚ))]

mutual

/-- `Expression.evaluate`: `Number` returns its value, `Variable` looks
its name up in the bindings (`ValueError`, modelled as `unboundVariable`,
when absent), composites fold the scalar operation over their evaluated
children, and `Apply` first looks its function name up in the registry
(`KeyError`, modelled as `unknownFunction`, before the argument is
evaluated) and then applies it to the evaluated argument. -/
def evaluate (b : List (String × ℚ)) : Expr → Except PyError ℚ
  | .number v => .ok v
  | .var n =>
      match b.lookup n with
      | some v => .ok v
      | none => .error (.unboundVariable n)
  | .sum ts => do
      let vs ← evaluateList b ts
      .ok (vs.foldl (· + ·) 0)
  | .difference m s => do
      let mv ← evaluate b m
      let sv ← evaluate b s
      .ok (mv - sv)
  | .product f1 f2 => do
      let v1 ← evaluate b f1
      let v2 ← evaluate b f2
      .ok (v1 * v2)
  | .quotient n d => do
      let nv ← evaluate b n
      let dv ← evaluate b d
      if dv = 0 then .error .zeroDivision else .ok (nv / dv)
  | .power bse ex => do
      let bv ← evaluate b bse
      let ev ← evaluate b ex
      pypow bv ev
  | .negative e => do
      let v ← evaluate b e
      .ok (-v)
  | .absoluteValue e => do
      let v ← evaluate b e
      .ok |v|
  | .squareRoot e => do
      let v ← evaluate b e
      pysqrt v
  | .modulo a d => do
      let av ← evaluate b a
      let dv ← evaluate b d
      pymod av dv
  | .apply fname arg =>
      match SPECIAL_FUNCTIONS_BINDING.lookup fname with
      | none => .error (.unknownFunction fname)
      | some f => do
          let v ← evaluate b arg
          f v

/-- Evaluates a list of terms left to right (the generator consumed by
Python's `sum` in `Sum.evaluate`), propagating the first error. -/
def evaluateList (b : List (String × ℚ)) : List Expr → Except PyError (List ℚ)
  | [] => .ok []
  | t :: ts => do
      let v ← evaluate b t
      let vs ← evaluateList b ts
      .ok (v :: vs)

end

mutual

/-- `Expression.expand`, fuel-indexed: the Python recursion carries no
fuel, but its distribution steps recurse on freshly built trees
(`Product(term, factor2).expand()`), so the embedding charges one fuel
unit per method call to make the function well defined; `outOfFuel` is
therefore a model artifact and every claim is stated at an explicit
sufficient fuel or generically in the fuel. Distribution uses the
original (unexpanded) partner operand, exactly as the source does.
`Modulo` has no `expand` method, so the inherited abstract stub runs and
returns `None`. In `Power.expand`, distributing over a `Sum` exponent
calls `Product(*list)`, which raises `TypeError` unless the list has
exactly two elements, the arity of `Product.__init__`. -/
def expand : Nat → Expr → Except PyError Expr
  | 0, _ => .error .outOfFuel
  | fuel + 1, e =>
    match e with
    | .number v => .ok (.number v)
    | .var n => .ok (.var n)
    | .sum ts => do
        let es ← expandList fuel ts
        .ok (.sum es)
    | .difference m s => do
        let em ← expand fuel m
        let es ← expand fuel s
        .ok (.difference em es)
    | .product f1 f2 => do
        let e1 ← expand fuel f1
        let e2 ← expand fuel f2
        match e1 with
        | .sum ts => do
            let ps ← expandList fuel (ts.map (fun t => Expr.product t f2))
            .ok (.sum ps)
        | _ =>
          match e2 with
          | .sum ts => do
              let ps ← expandList fuel (ts.map (fun t => Expr.product f1 t))
              .ok (.sum ps)
          | _ => .ok (.product e1 e2)
    | .quotient n d => do
        let en ← expand fuel n
        let ed ← expand fuel d
        match en with
        | .sum ts => do
            let qs ← expandList fuel (ts.map (fun t => Expr.quotient t d))
            .ok (.sum qs)
        | _ =>
          match ed with
          | .sum ts => do
              let qs ← expandList fuel (ts.map (fun t => Expr.quotient n t))
              .ok (.sum qs)
          | _ => .ok (.quotient en ed)
    | .power bse ex => do
        let eb ← expand fuel bse
        let ee ← expand fuel ex
        match eb with
        | .sum ts => do
            let ps ← expandList fuel (ts.map (fun t => Expr.power t ex))
            .ok (.sum ps)
        | _ =>
          match ee with
          | .sum ts => do
              let ps ← expandList fuel (ts.map (fun t => Expr.power bse t))
              match ps with
              | [p1, p2] => .ok (.product p1 p2)
              | _ => .error .typeError
          | _ => .ok (.power eb ee)
    | .negative e1 => do
        let r ← expand fuel e1
        .ok (.negative r)
    | .absoluteValue e1 => do
        let r ← expand fuel e1
        .ok (.absoluteValue r)
    | .squareRoot e1 => do
        let r ← expand fuel e1
        .ok (.squareRoot r)
    | .modulo _ _ => .error .returnsNone
    | .apply fname arg => do
        let r ← expand fuel arg
        .ok (.apply fname r)
termination_by fuel e => (fuel, 0)

/-- Maps `expand` over a list left to right (Python's list comprehension
of `.expand()` calls), propagating the first error. -/
def expandList (fuel : Nat) : List Expr → Except PyError (List Expr)
  | [] => .ok []
  | t :: ts => do
      let e ← expand fuel t
      let es ← expandList fuel ts
      .ok (e :: es)
termination_by l => (fuel, l.length + 1)

end

mutual

/-- `Expression.derivative`: `Number` differentiates to `Number(0)`,
`Variable` to `Number(1)` or `Number(0)`, and the composite rules follow
the source, with recursive calls in Python's argument-evaluation order.
`Power.derivative` computes the base's derivative and then calls
`Product` with three arguments; `Product.__init__` takes exactly two, so
the call raises `TypeError`. `SquareRoot`, `Modulo` and `Apply` define no
`derivative` method, so the inherited abstract stub runs and returns
`None` (no tree is synthesized); `AbsoluteValue` does define one,
wrapping the operand's derivative in `AbsoluteValue`. -/
def derivative (v : String) : Expr → Except PyError Expr
  | .number _ => .ok (.number 0)
  | .var n => if n = v then .ok (.number 1) else .ok (.number 0)
  | .sum ts => do
      let ds ← derivativeList v ts
      .ok (.sum ds)
  | .difference m s => do
      let dm ← derivative v m
      let ds ← derivative v s
      .ok (.difference dm ds)
  | .product f1 f2 => do
      let d2 ← derivative v f2
      let d1 ← derivative v f1
      .ok (.sum [.product f1 d2, .product d1 f2])
  | .quotient n d => do
      let dn ← derivative v n
      let dd ← derivative v d
      .ok (.quotient (.difference (.product dn d) (.product n dd))
        (.power d (.number 2)))
  | .power bse _ => do
      let _ ← derivative v bse
      .error .typeError
  | .negative e => do
      let de ← derivative v e
      .ok (.negative de)
  | .absoluteValue e => do
      let de ← derivative v e
      .ok (.absoluteValue de)
  | .squareRoot _ => .error .returnsNone
  | .modulo _ _ => .error .returnsNone
  | .apply _ _ => .error .returnsNone

/-- Maps `derivative` over a list left to right (the list comprehension
in `Sum.derivative`), propagating the first error. -/
def derivativeList (v : String) : List Expr → Except PyError (List Expr)
  | [] => .ok []
  | t :: ts => do
      let d ← derivative v t
      let ds ← derivativeList v ts
      .ok (d :: ds)

end

/-- `isinstance(e, Sum)`: whether the node is a `Sum`, the test guarding
every distribution branch of `expand`. -/
def isSum : Expr → Bool
  | .sum _ => true
  | _ => false

/-- The variant class of a node, for `isinstance` checks. -/
def kindOf : Expr → PyClass
  | .number _ => .number
  | .var _ => .variableCls
  | .sum _ => .sum
  | .difference _ _ => .difference
  | .product _ _ => .product
  | .quotient _ _ => .quotient
  | .power _ _ => .power
  | .negative _ => .negative
  | .absoluteValue _ => .absoluteValue
  | .squareRoot _ => .squareRoot
  | .modulo _ _ => .modulo
  | .apply _ _ => .applyCls

/-- A Python runtime value reachable from an expression's `__dict__`: an
`Expression` node, a bare number, a string, the tuple held by
`Sum.terms`, or a `Function` object (which is not an `Expression`). -/
inductive PyVal where
  | expr (e : Expr)
  | pyNum (q : ℚ)
  | pyStr (s : String)
  | pyTuple (vs : List PyVal)
  | pyFunc (name : String)

/-- `expression.__dict__.values()` in attribute-assignment order: the
instance attributes each `__init__` stores. For `Sum` this is the single
`terms` tuple, for `Apply` the `Function` object followed by the
argument, and for `Number` and `Variable` a bare number or string. -/
def dictValues : Expr → List PyVal
  | .number v => [.pyNum v]
  | .var n => [.pyStr n]
  | .sum ts => [.pyTuple (ts.map .expr)]
  | .difference m s => [.expr m, .expr s]
  | .product f1 f2 => [.expr f1, .expr f2]
  | .quotient n d => [.expr n, .expr d]
  | .power bse ex => [.expr bse, .expr ex]
  | .negative e => [.expr e]
  | .absoluteValue e => [.expr e]
  | .squareRoot e => [.expr e]
  | .modulo a d => [.expr a, .expr d]
  | .apply fname arg => [.pyFunc fname, .expr arg]

/-- `isinstance(v, K)` for a variant class `K`: true only for expression
nodes of that variant; tuples, numbers, strings and `Function` objects
are instances of no variant class. -/
def isInstanceOf (v : PyVal) (k : PyClass) : Bool :=
  match v with
  | .expr e => kindOf e == k
  | _ => false

mutual

/-- Structural size of an expression tree (used only as a termination
measure; the automatically derived `sizeOf` for this nested inductive is
not executable). -/
def exprSize : Expr → Nat
  | .number _ => 1
  | .var _ => 1
  | .sum ts => 1 + exprSizeList ts
  | .difference m s => 1 + exprSize m + exprSize s
  | .product f1 f2 => 1 + exprSize f1 + exprSize f2
  | .quotient n d => 1 + exprSize n + exprSize d
  | .power bse ex => 1 + exprSize bse + exprSize ex
  | .negative e => 1 + exprSize e
  | .absoluteValue e => 1 + exprSize e
  | .squareRoot e => 1 + exprSize e
  | .modulo a d => 1 + exprSize a + exprSize d
  | .apply _ arg => 1 + exprSize arg

/-- Total size of a list of expressions. -/
def exprSizeList : List Expr → Nat
  | [] => 0
  | t :: ts => exprSize t + exprSizeList ts

end

/-- Termination measure for the generic `__dict__` recursion: only
expression nodes are ever recursed into (every other value reaches the
`TypeError` branch without a recursive call). -/
def pyValMeasure : PyVal → Nat
  | .expr e => 2 * exprSize e
  | _ => 0

mutual

/-- `expression_contain_combinator` from the source: if the value is an
instance of the target variant class the search succeeds; otherwise, if
it is an `Expression`, the search recurses generically through
`__dict__.values()` under a lazy `any`; otherwise it raises `TypeError`
("expression must be an instance of Expression"). The `TypeError` branch
fires not only on non-expression top-level arguments but also on the
non-expression attribute values (tuples, strings, numbers, `Function`
objects) the generic recursion reaches inside every tree. -/
def expression_contain_combinator (expression : PyVal) (combinator : PyClass) :
    Except PyError Bool :=
  if isInstanceOf expression combinator then .ok true
  else
    match expression with
    | .expr e => contain_any (dictValues e) combinator
    | _ => .error .typeError
termination_by (pyValMeasure expression, 0)
decreasing_by
  simp only [Prod.lex_def, pyValMeasure]
  cases e <;>
    simp [dictValues, pyValMeasure, exprSize, exprSizeList] <;> omega

/-- Python's lazy `any` over the generator of recursive searches:
left to right, stopping at the first success, propagating the first
exception. -/
def contain_any (vs : List PyVal) (combinator : PyClass) : Except PyError Bool :=
  match vs with
  | [] => .ok false
  | v :: rest => do
      let hit ← expression_contain_combinator v combinator
      if hit then .ok true else contain_any rest combinator
termination_by ((vs.map pyValMeasure).sum, vs.length + 1)
decreasing_by
  all_goals
    simp only [Prod.lex_def, List.map_cons, List.sum_cons, List.length_cons]
  all_goals omega

end

/-! Helper lemmas shared by the claim theorems: reduction of the `Except`
monad's bind and two evaluations of the exact square-root search. -/

@[simp] theorem ok_bind {ε α β : Type} (a : α) (f : α → Except ε β) :
    (Except.ok a >>= f : Except ε β) = f a := rfl

@[simp] theorem error_bind {ε α β : Type} (e : ε) (f : α → Except ε β) :
    ((Except.error e : Except ε α) >>= f) = .error e := rfl

theorem exactNatSqrt_four : exactNatSqrt 4 = some 2 := by decide

theorem exactNatSqrt_one : exactNatSqrt 1 = some 1 := by decide

/-- C1: No concrete variant class implements the abstract `__str__`
(`Modulo` additionally omits `expand` and `derivative`; `SquareRoot` and
`Apply` omit `derivative`), so under Python ABC semantics every one of the
twelve constructors raises `TypeError` for every argument list: no
expression node can be instantiated through the public constructors. -/
theorem constructors_raise_type_error :
    (∀ c : PyClass, instantiationRaisesTypeError c = true) ∧
    (∀ c : PyClass, PyMethod.strm ∈ unimplementedAbstractMethods c) ∧
    unimplementedAbstractMethods .modulo = [.strm, .expand, .derivative] ∧
    unimplementedAbstractMethods .squareRoot = [.strm, .derivative] ∧
    unimplementedAbstractMethods .applyCls = [.strm, .derivative] := by
  decide

/-- C2: contrary to the claim, `derivative(Power(Variable("x"),
Number(2)), "x")` does not succeed: `Power.derivative` passes three
arguments to `Product`, whose `__init__` takes exactly two factors, so
after computing the base's derivative the call raises `TypeError`; no
derivative tree exists to evaluate at `x = 3`. -/
theorem power_derivative_raises_type_error :
    derivative "x" (.power (.var "x") (.number 2)) = .error .typeError := by
  simp [derivative]

/-- C3: contrary to the claim, the combinator search raises `TypeError`
on the spec's own positive example — searching for `Power` inside
`Sum(Variable("x"), Power(Variable("x"), Number(2)))` recurses into the
`Sum`'s `terms` tuple, which is not an `Expression` — instead of
returning true. The bare-numeric-literal case and the root-match case
behave as the claim says. -/
theorem contain_combinator_raises_on_sum_tree :
    expression_contain_combinator
        (.expr (.sum [.var "x", .power (.var "x") (.number 2)])) .power
      = .error .typeError ∧
    expression_contain_combinator (.pyNum 3) .power = .error .typeError ∧
    expression_contain_combinator (.expr (.power (.var "x") (.number 2))) .power
      = .ok true := by
  refine ⟨?_, ?_, ?_⟩ <;>
    simp [expression_contain_combinator, contain_any, dictValues,
      isInstanceOf, kindOf]

/-- C4: `Variable.evaluate` returns the value bound to its name when the
name is present in the bindings and raises the unbound-variable
`ValueError` (modelled `unboundVariable`, observable by the caller, never
defaulted) when absent; concretely `evaluate(Variable("x"), {})` fails
with the unbound-variable error and `evaluate(Variable("x"), {"x": 5})`
is 5. -/
theorem variable_evaluate_lookup (x : String) (b : List (String × ℚ)) :
    (∀ q, b.lookup x = some q → evaluate b (.var x) = .ok q) ∧
    (b.lookup x = none → evaluate b (.var x) = .error (.unboundVariable x)) ∧
    evaluate [] (.var "x") = .error (.unboundVariable "x") ∧
    evaluate [("x", 5)] (.var "x") = .ok 5 := by
  refine ⟨fun q hq => ?_, fun hn => ?_, ?_, ?_⟩
  · simp [evaluate, hq]
  · simp [evaluate, hn]
  · simp [evaluate]
  · simp [evaluate, List.lookup]

/-- C4 witness: the lookup halves of `variable_evaluate_lookup` applied
at concrete bindings. -/
theorem variable_evaluate_lookup_witness :
    evaluate [("y", 7)] (.var "y") = .ok 7 ∧
    evaluate [("z", 1)] (.var "y") = .error (.unboundVariable "y") :=
  ⟨(variable_evaluate_lookup "y" [("y", 7)]).1 7 (by simp [List.lookup]),
   (variable_evaluate_lookup "y" [("z", 1)]).2.1 (by simp [List.lookup])⟩

/-- C5: `Apply.evaluate` resolves the function name in the fixed registry
— failing with `KeyError` (modelled `unknownFunction`), propagated to the
caller, for every unregistered name — and applies the registered function
to the evaluated argument; `evaluate(Apply(Function("sqrt")), Number(4)),
{})` is 2. -/
theorem apply_evaluate_registry :
    evaluate [] (.apply "sqrt" (.number 4)) = .ok 2 ∧
    (∀ name, SPECIAL_FUNCTIONS_BINDING.lookup name = none →
      ∀ (arg : Expr) (b : List (String × ℚ)),
        evaluate b (.apply name arg) = .error (.unknownFunction name)) ∧
    (∀ name f, SPECIAL_FUNCTIONS_BINDING.lookup name = some f →
      ∀ (arg : Expr) (b : List (String × ℚ)) (q : ℚ),
        evaluate b arg = .ok q →
        evaluate b (.apply name arg) = f q) := by
  refine ⟨?_, fun name hn arg b => ?_, fun name f hf arg b q hq => ?_⟩
  · simp [evaluate, SPECIAL_FUNCTIONS_BINDING, List.lookup, pysqrt,
      exactNatSqrt_four, exactNatSqrt_one]
  · simp [evaluate, hn]
  · simp [evaluate, hf, hq]

/-- C5 witness: `apply_evaluate_registry` applied to the unregistered
name `nope` and to the registered function `abs` at `-3`. -/
theorem apply_evaluate_registry_witness :
    evaluate [] (.apply "nope" (.number 0)) = .error (.unknownFunction "nope") ∧
    evaluate [] (.apply "abs" (.number (-3))) = .ok 3 := by
  constructor
  · exact apply_evaluate_registry.2.1 "nope"
      (by simp [SPECIAL_FUNCTIONS_BINDING, List.lookup]) (.number 0) []
  · have h := apply_evaluate_registry.2.2 "abs" (fun q => .ok |q|)
      (by simp [SPECIAL_FUNCTIONS_BINDING, List.lookup]) (.number (-3)) [] (-3)
      (by simp [evaluate])
    rw [h]
    norm_num

/-- C6 counterexample: the claim promises the exponent-`Sum` distribution
for any number of terms, but with the one-term `Sum` exponent
`Sum(Variable("y"))` the distribution calls `Product(*[single element])`
and the binary `Product` constructor raises `TypeError`. -/
theorem power_expand_singleton_exponent_raises :
    expand 3 (.power (.var "x") (.sum [.var "y"])) = .error .typeError := by
  simp [expand, expandList]

/-- C6 (amended): expanding `Power(b, e)` first expands both children; if
the expanded base is a `Sum`, the result is the `Sum` of the expanded
`Power(term, e)` over its terms; otherwise, if the expanded exponent is a
`Sum` with exactly two terms, the result is the binary `Product` of the
two expanded `Power(b, term)` (with any other number of exponent terms
the `Product(*list)` call raises `TypeError`); otherwise the result is
`Power(b.expand(), e.expand())`. -/
theorem power_expand_rules (fuel : Nat) (b e : Expr) :
    (∀ ts ee, expand fuel b = .ok (.sum ts) → expand fuel e = .ok ee →
      expand (fuel + 1) (.power b e) =
        Except.map Expr.sum (expandList fuel (ts.map (fun t => Expr.power t e)))) ∧
    (∀ eb t1 t2 p1 p2, expand fuel b = .ok eb → isSum eb = false →
      expand fuel e = .ok (.sum [t1, t2]) →
      expand fuel (.power b t1) = .ok p1 → expand fuel (.power b t2) = .ok p2 →
      expand (fuel + 1) (.power b e) = .ok (.product p1 p2)) ∧
    (∀ eb ee, expand fuel b = .ok eb → isSum eb = false →
      expand fuel e = .ok ee → isSum ee = false →
      expand (fuel + 1) (.power b e) = .ok (.power eb ee)) := by
  refine ⟨fun ts ee hb he => ?_, fun eb t1 t2 p1 p2 hb hsb he hp1 hp2 => ?_,
    fun eb ee hb hsb he hse => ?_⟩
  · simp only [expand, hb, he, ok_bind]
    cases h : expandList fuel (ts.map (fun t => Expr.power t e)) <;>
      simp [Except.map]
  · simp only [expand, hb, he, ok_bind]
    cases eb <;> simp_all [isSum, expandList, expand, hp1, hp2]
  · simp only [expand, hb, he, ok_bind]
    cases eb <;> cases ee <;> simp_all [isSum]

/-- C6 witness: the base-`Sum` branch of `power_expand_rules` applied to
`Power(Sum(Variable("x"), Variable("y")), Number(2))`. -/
theorem power_expand_rules_witness :
    expand 3 (.power (.sum [.var "x", .var "y"]) (.number 2))
      = .ok (.sum [.power (.var "x") (.number 2),
                   .power (.var "y") (.number 2)]) := by
  have h := (power_expand_rules 2 (.sum [.var "x", .var "y"]) (.number 2)).1
    [.var "x", .var "y"] (.number 2)
    (by simp [expand, expandList]) (by simp [expand])
  norm_num at h
  rw [h]
  simp [expandList, expand, Except.map]

/-- C7 counterexample: contrary to the claim, `AbsoluteValue` does define
a `derivative` method (wrapping the operand's derivative in
`AbsoluteValue`), so calling it produces a synthesized tree. -/
theorem absolute_value_derivative_is_defined :
    derivative "x" (.absoluteValue (.var "x"))
      = .ok (.absoluteValue (.number 1)) := by
  simp [derivative]

/-- C7 (amended): `Apply`, `Modulo` and `SquareRoot` have no
differentiation rule — calling `derivative` on them lands on the abstract
stub and synthesizes no tree — while `AbsoluteValue` does define one,
returning the `AbsoluteValue` of its operand's derivative. -/
theorem derivative_missing_rules (v : String) :
    (∀ f a, derivative v (.apply f a) = .error .returnsNone) ∧
    (∀ a d, derivative v (.modulo a d) = .error .returnsNone) ∧
    (∀ e, derivative v (.squareRoot e) = .error .returnsNone) ∧
    (∀ e d, derivative v e = .ok d →
      derivative v (.absoluteValue e) = .ok (.absoluteValue d)) := by
  refine ⟨fun f a => ?_, fun a d => ?_, fun e => ?_, fun e d h => ?_⟩ <;>
    simp [derivative, *]

/-- C7 witness: the `AbsoluteValue` half of `derivative_missing_rules`
applied to `AbsoluteValue(Number(3))`. -/
theorem derivative_missing_rules_witness :
    derivative "x" (.absoluteValue (.number 3))
      = .ok (.absoluteValue (.number 0)) :=
  (derivative_missing_rules "x").2.2.2 (.number 3) (.number 0)
    (by simp [derivative])

/-- C8: `Quotient.derivative` implements the quotient rule, with
`Product(n', d)` as the minuend: the derivative of `Quotient(n, d)` is
`Quotient(Difference(Product(n', d), Product(n, d')), Power(d,
Number(2)))` whenever the derivatives `n'` and `d'` of the operands
exist. -/
theorem quotient_derivative_rule (v : String) (n d n' d' : Expr)
    (hn : derivative v n = .ok n') (hd : derivative v d = .ok d') :
    derivative v (.quotient n d) =
      .ok (.quotient (.difference (.product n' d) (.product n d'))
        (.power d (.number 2))) := by
  simp [derivative, hn, hd]

/-- C8 witness: `quotient_derivative_rule` applied to
`Quotient(Variable("x"), Number(2))`. -/
theorem quotient_derivative_rule_witness :
    derivative "x" (.quotient (.var "x") (.number 2)) =
      .ok (.quotient
        (.difference (.product (.number 1) (.number 2))
          (.product (.var "x") (.number 0)))
        (.power (.number 2) (.number 2))) :=
  quotient_derivative_rule "x" (.var "x") (.number 2) (.number 1) (.number 0)
    (by simp [derivative]) (by simp [derivative])

/-- C9: expanding `Product(Sum(Variable("x"), Number(1)), Variable("y"))`
distributes into `Sum(Product(x, y), Product(1, y))`, and under the
bindings `x = 2, y = 3` the expanded and the unexpanded trees both
evaluate to 9: expansion preserves the evaluation result here. -/
theorem expand_product_preserves_evaluation :
    expand 4 (.product (.sum [.var "x", .number 1]) (.var "y"))
      = .ok (.sum [.product (.var "x") (.var "y"),
                   .product (.number 1) (.var "y")]) ∧
    evaluate [("x", 2), ("y", 3)]
        (.sum [.product (.var "x") (.var "y"), .product (.number 1) (.var "y")])
      = .ok 9 ∧
    evaluate [("x", 2), ("y", 3)]
        (.product (.sum [.var "x", .number 1]) (.var "y")) = .ok 9 := by
  refine ⟨?_, ?_, ?_⟩
  · simp [expand, expandList]
  · simp [evaluate, evaluateList, List.lookup]; norm_num
  · simp [evaluate, evaluateList, List.lookup]; norm_num

/-- C10: `Sum.terms` may hold zero or more terms (the constructor takes
any list); for every bindings map a zero-term `Sum` evaluates to the
additive identity 0, and expanding it (at any fuel) yields the empty
`Sum` again. -/
theorem empty_sum_identities (b : List (String × ℚ)) (fuel : Nat) :
    evaluate b (.sum []) = .ok 0 ∧ expand (fuel + 1) (.sum []) = .ok (.sum []) := by
  constructor
  · simp [evaluate, evaluateList]
  · simp [expand, expandList]

end Calculus
